import Mathlib

/-!
# Java profiling arguments: defaults, loading and validation

A shallow embedding of `internal/component/pyroscope/java/args.go`:
the `Arguments` / `ProfilingConfig` records, `DefaultArguments`,
`Arguments.UnmarshalAlloy` and `Arguments.Validate`, followed by the
properties established about them. The invocation synthesizer is not part of
that file; `Synthesize` and the types it returns are modelled from the
specification and marked as such.

Modelling conventions.
* A Go `string` is a `String`; a Go `bool` is a `Bool`.
* A Go `int` and a `time.Duration` are `Int` (no arithmetic is performed on
  them by this file's functions, so no wrap-around can occur).
* A Go slice `[]T` is a `GoSlice T = Option (List T)`: `none` is the `nil`
  slice, `some xs` a non-nil slice with elements `xs`.
* A Go `error` result is `Except GoError Unit`: `.ok ()` is the `nil` error,
  `.error m` a non-nil error whose `Error()` text is `m`.
* A pointer receiver that is written through becomes explicit state passing:
  the function takes the prior value and returns the new one.
-/

namespace java

/-- The text of a non-nil Go `error` (what its `Error()` method returns). -/
abbrev GoError := String

/-- A Go slice: `none` is `nil`, `some xs` is a non-nil slice holding `xs`. -/
abbrev GoSlice (α : Type) := Option (List α)

/-- Length of a Go slice (`len`); the `nil` slice has length 0. -/
def GoSlice.len {α : Type} (s : GoSlice α) : Nat :=
  match s with
  | none => 0
  | some xs => xs.length

deriving instance DecidableEq for Except

/-- The constant `time.Second`, in nanoseconds. -/
def Second : Int := 1000000000

/-- The record `ProfilingConfig` (args.go, lines 22-65), fields in declaration order. -/
structure ProfilingConfig where
  Interval : Int
  -- CPU Profiling Options
  CPU : Bool
  Event : String
  SampleRate : Int
  Wall : String
  AllUser : Bool
  PerThread : Bool
  Filter : String
  Sched : Bool
  TTSP : Bool
  Begin : String
  End : String
  NoStop : Bool
  Proc : String
  TargetCPU : Int
  RecordCPU : Bool
  -- Memory Profiling Options
  Alloc : String
  Live : Bool
  NativeMem : String
  NoFree : Bool
  -- Lock Profiling Options
  Lock : String
  NativeLock : String
  -- Miscellaneous Options
  All : Bool
  LogLevel : String
  Quiet : Bool
  Include : GoSlice String
  Exclude : GoSlice String
  JStackDepth : Int
  CStack : String
  Features : GoSlice String
  Trace : GoSlice String
  JFRSync : String
  Signal : String
  Clock : String
  deriving DecidableEq, Repr

/-- The record `Arguments` (args.go, lines 11-20). The element types
`discovery.Target` and `pyroscope.Appendable` are declared in other packages
and are taken as the parameters `Target` and `Appendable`. -/
structure Arguments (Target Appendable : Type) where
  Targets : GoSlice Target
  ForwardTo : GoSlice Appendable
  TmpDir : String
  ProfilingConfig : ProfilingConfig
  -- undocumented
  Dist : String
  deriving DecidableEq, Repr

variable {Target Appendable : Type}

/-- The function `DefaultArguments` (args.go, lines 82-130). Fields the
composite literal does not mention (`Targets`, `ForwardTo`, `Dist`) take
their zero value: the `nil` slice and the empty string. -/
def DefaultArguments : Arguments Target Appendable :=
  { Targets := none
    ForwardTo := none
    TmpDir := "/tmp"
    ProfilingConfig :=
      { Interval := 60 * Second
        -- CPU Profiling Options
        CPU := true
        Event := "itimer"
        SampleRate := 100
        Wall := ""
        AllUser := false
        PerThread := false
        Filter := ""
        Sched := false
        TTSP := false
        Begin := ""
        End := ""
        NoStop := false
        Proc := ""
        TargetCPU := -1
        RecordCPU := false
        -- Memory Profiling Options
        Alloc := "512k"
        Live := false
        NativeMem := ""
        NoFree := false
        -- Lock Profiling Options
        Lock := "10ms"
        NativeLock := ""
        -- Miscellaneous Options
        All := false
        LogLevel := "INFO"
        Quiet := false
        Include := some []
        Exclude := some []
        JStackDepth := 2048
        CStack := ""
        Features := some []
        Trace := some []
        JFRSync := ""
        Signal := ""
        Clock := "tsc" }
    Dist := "" }

/-- The zero value of `ProfilingConfig`: what Go gives a variable of the type
that was never assigned. -/
def ProfilingConfig.zero : ProfilingConfig :=
  { Interval := 0, CPU := false, Event := "", SampleRate := 0, Wall := "",
    AllUser := false, PerThread := false, Filter := "", Sched := false,
    TTSP := false, Begin := "", End := "", NoStop := false, Proc := "",
    TargetCPU := 0, RecordCPU := false, Alloc := "", Live := false,
    NativeMem := "", NoFree := false, Lock := "", NativeLock := "",
    All := false, LogLevel := "", Quiet := false, Include := none,
    Exclude := none, JStackDepth := 0, CStack := "", Features := none,
    Trace := none, JFRSync := "", Signal := "", Clock := "" }

/-- The zero value of `Arguments`. -/
def Arguments.zero : Arguments Target Appendable :=
  { Targets := none, ForwardTo := none, TmpDir := "",
    ProfilingConfig := ProfilingConfig.zero, Dist := "" }

/-- The local type `config` of `UnmarshalAlloy` (`type config Arguments`): the
same underlying record, without the methods of `Arguments`. -/
abbrev config (Target Appendable : Type) := Arguments Target Appendable

/-- A decoder `func(any) error` as `UnmarshalAlloy` uses it: it is handed a
pointer to a `config`, may write through it, and returns an error. In state
passing style it maps the value behind the pointer to the value it leaves
there, paired with its result. -/
abbrev Decoder (Target Appendable : Type) :=
  config Target Appendable → config Target Appendable × Except GoError Unit

/-- The method `Arguments.UnmarshalAlloy` (args.go, lines 67-71):
`*rc = DefaultArguments()` overwrites the receiver, then the decoder runs on
it and its error is returned. The result is the receiver after the call
together with the returned error. -/
def Arguments.UnmarshalAlloy (_prior : Arguments Target Appendable)
    (f : Decoder Target Appendable) :
    Arguments Target Appendable × Except GoError Unit :=
  let rc : Arguments Target Appendable := DefaultArguments
  f rc

/-- The error text built by `fmt.Errorf` in `Validate` (args.go, line 78):
the verb `%s` is replaced by the event string as it is. -/
def invalidEventError (event : String) : GoError :=
  "invalid event: '" ++ event ++ "'. Event must be one of 'itimer', 'cpu' or 'wall'"

/-- The method `Arguments.Validate` (args.go, lines 73-80). -/
def Arguments.Validate (arg : Arguments Target Appendable) : Except GoError Unit :=
  match arg.ProfilingConfig.Event with
  | "itimer" | "cpu" | "wall" => .ok ()
  | _ => .error (invalidEventError arg.ProfilingConfig.Event)

/-- A decoder does not write the field read by `get`: whatever value it is
handed, the value it leaves has the same `get`. -/
def Decoder.DoesNotWrite {β : Type} (f : Decoder Target Appendable)
    (get : Arguments Target Appendable → β) : Prop :=
  ∀ a, get (f a).1 = get a

/-- The decoder for an empty payload: it writes nothing and reports no error. -/
def emptyDecoder : Decoder Target Appendable :=
  fun a => (a, .ok ())

/-- The value `arg` with its `ProfilingConfig.Event` replaced by `event`. -/
def Arguments.withEvent (arg : Arguments Target Appendable) (event : String) :
    Arguments Target Appendable :=
  { arg with ProfilingConfig := { arg.ProfilingConfig with Event := event } }

/-- The value `arg` with its three numeric fields replaced. -/
def Arguments.withNumeric (arg : Arguments Target Appendable)
    (sampleRate jStackDepth targetCPU : Int) : Arguments Target Appendable :=
  { arg with ProfilingConfig := { arg.ProfilingConfig with
      SampleRate := sampleRate, JStackDepth := jStackDepth, TargetCPU := targetCPU } }

/-- The string `s` contains `sub` as a contiguous run of characters. -/
def Contains (s sub : String) : Prop := sub.data <:+: s.data

/-- A decoder that writes only `tmp_dir`. -/
def tmpDirDecoder : Decoder Unit Unit :=
  fun a => ({ a with TmpDir := "/var/tmp" }, .ok ())

/-- A configuration with the event `cpu` whose numeric fields are negative:
what loading `sample_rate = -1`, `jstackdepth = -1`, `target_cpu = -2` and
`event = "cpu"` leaves in the receiver. -/
def negativeNumericArguments : Arguments Unit Unit :=
  ((DefaultArguments : Arguments Unit Unit).withEvent "cpu").withNumeric (-1) (-1) (-2)

/-- A configuration unlike the defaults in every group except the event. -/
def busyArguments : Arguments Unit Unit :=
  { Targets := some [(), ()]
    ForwardTo := some [()]
    TmpDir := "/var/tmp"
    ProfilingConfig :=
      { ProfilingConfig.zero with
        Interval := 15 * Second, Event := "itimer", SampleRate := -7,
        Wall := "10ms", Alloc := "1m", Live := true, Lock := "", All := true,
        LogLevel := "debug", Include := some ["a", "b"], TargetCPU := 3 }
    Dist := "x" }

/-- A decoder that writes `tmp_dir` and then fails. -/
def failingDecoder : Decoder Unit Unit :=
  fun a => ({ a with TmpDir := "/var/tmp" }, .error "decode: unknown attribute")

/-- The elements of a Go slice, in order; the `nil` slice has none. -/
def GoSlice.elems {α : Type} (s : GoSlice α) : List α :=
  match s with
  | none => []
  | some xs => xs

/-- Modelled from the spec: the name of a flag token. The synthesizer is not
part of `args.go`; the spec leaves the spelling of the flags to the external
profiler, so a flag is named after the `ProfilingConfig` field it encodes.
There is no name for `All`, which is expanded and never forwarded, nor for
`Interval`, which is a top-level value. -/
inductive Flag where
  | CPU | Event | SampleRate | Wall | AllUser | PerThread | Filter | Sched | TTSP
  | Begin | End | NoStop | Proc | TargetCPU | RecordCPU
  | Alloc | Live | NativeMem | NoFree
  | Lock | NativeLock
  | LogLevel | Quiet | Include | Exclude | JStackDepth | CStack | Features | Trace
  | JFRSync | Signal | Clock
  deriving DecidableEq, Repr

/-- Modelled from the spec: a flag token of the Invocation Specification,
"each either a standalone switch or a key/value pair". -/
inductive FlagToken where
  | switch (flag : Flag)
  | pair (flag : Flag) (value : String)
  deriving DecidableEq, Repr

/-- Modelled from the spec: the flag a token carries. -/
def FlagToken.flag : FlagToken → Flag
  | .switch flag => flag
  | .pair flag _ => flag

/-- Modelled from the spec: the Invocation Specification, "an ordered
sequence of discrete flag tokens plus a top-level interval and
target-directory value". -/
structure InvocationSpec where
  Tokens : List FlagToken
  Interval : Int
  TmpDir : String
  deriving DecidableEq, Repr

/-- Modelled from the spec: the effective enabled set of the six features the
aggregate flag stands for. -/
structure EffectiveSet where
  CPU : Bool
  Wall : Bool
  Alloc : Bool
  Live : Bool
  NativeMem : Bool
  Lock : Bool
  deriving DecidableEq, Repr

/-- Modelled from the spec: the aggregate flag "must be treated as shorthand
that logically enables CPU, wall, allocation, live-object, native-memory, and
lock sampling simultaneously"; without it a boolean feature is enabled by its
flag and a duration/size feature by a non-empty string ("empty (feature
disabled)"). -/
def effectiveSet (cfg : ProfilingConfig) : EffectiveSet :=
  { CPU := cfg.All || cfg.CPU
    Wall := cfg.All || cfg.Wall != ""
    Alloc := cfg.All || cfg.Alloc != ""
    Live := cfg.All || cfg.Live
    NativeMem := cfg.All || cfg.NativeMem != ""
    Lock := cfg.All || cfg.Lock != "" }

/-- Modelled from the spec: "boolean fields are encoded as a flag presence or
absence with no value". -/
def switchToken (flag : Flag) (present : Bool) : List FlagToken :=
  if present then [FlagToken.switch flag] else []

/-- Modelled from the spec: a field encoded "as a single flag/value pair",
which "contributes nothing to the output if its governing enable condition is
false". -/
def pairToken (flag : Flag) (enabled : Bool) (value : String) : List FlagToken :=
  if enabled then [FlagToken.pair flag value] else []

/-- Modelled from the spec: list-valued fields "each expand into one flag
token per list element, preserving input order; empty lists contribute no
tokens". -/
def listTokens (flag : Flag) (xs : GoSlice String) : List FlagToken :=
  xs.elems.map (FlagToken.pair flag)

/-- Modelled from the spec: the tokens of the CPU group, in declaration
order. The CPU and wall tokens follow the effective enabled set; the event
and the sample rate are the parameters of CPU sampling and are emitted with
it; `target_cpu` is omitted at its sentinel -1 ("no CPU-restriction flag
token emitted"); every other string is omitted when empty. -/
def cpuGroup (cfg : ProfilingConfig) : List FlagToken :=
  switchToken Flag.CPU (effectiveSet cfg).CPU ++
  pairToken Flag.Event ((effectiveSet cfg).CPU && cfg.Event != "") cfg.Event ++
  pairToken Flag.SampleRate (effectiveSet cfg).CPU (toString cfg.SampleRate) ++
  pairToken Flag.Wall (effectiveSet cfg).Wall cfg.Wall ++
  switchToken Flag.AllUser cfg.AllUser ++
  switchToken Flag.PerThread cfg.PerThread ++
  pairToken Flag.Filter (cfg.Filter != "") cfg.Filter ++
  switchToken Flag.Sched cfg.Sched ++
  switchToken Flag.TTSP cfg.TTSP ++
  pairToken Flag.Begin (cfg.Begin != "") cfg.Begin ++
  pairToken Flag.End (cfg.End != "") cfg.End ++
  switchToken Flag.NoStop cfg.NoStop ++
  pairToken Flag.Proc (cfg.Proc != "") cfg.Proc ++
  pairToken Flag.TargetCPU (cfg.TargetCPU != -1) (toString cfg.TargetCPU) ++
  switchToken Flag.RecordCPU cfg.RecordCPU

/-- Modelled from the spec: the tokens of the memory group, in declaration
order ("omit allocation flag entirely when `alloc` is empty and `all` is
false"). -/
def memoryGroup (cfg : ProfilingConfig) : List FlagToken :=
  pairToken Flag.Alloc (effectiveSet cfg).Alloc cfg.Alloc ++
  switchToken Flag.Live (effectiveSet cfg).Live ++
  pairToken Flag.NativeMem (effectiveSet cfg).NativeMem cfg.NativeMem ++
  switchToken Flag.NoFree cfg.NoFree

/-- Modelled from the spec: the tokens of the lock group, in declaration order. -/
def lockGroup (cfg : ProfilingConfig) : List FlagToken :=
  pairToken Flag.Lock (effectiveSet cfg).Lock cfg.Lock ++
  pairToken Flag.NativeLock (cfg.NativeLock != "") cfg.NativeLock

/-- Modelled from the spec: the tokens of the miscellaneous group, in
declaration order. The aggregate flag itself yields no token ("not simply
forward the flag"). -/
def miscGroup (cfg : ProfilingConfig) : List FlagToken :=
  pairToken Flag.LogLevel (cfg.LogLevel != "") cfg.LogLevel ++
  switchToken Flag.Quiet cfg.Quiet ++
  listTokens Flag.Include cfg.Include ++
  listTokens Flag.Exclude cfg.Exclude ++
  pairToken Flag.JStackDepth true (toString cfg.JStackDepth) ++
  pairToken Flag.CStack (cfg.CStack != "") cfg.CStack ++
  listTokens Flag.Features cfg.Features ++
  listTokens Flag.Trace cfg.Trace ++
  pairToken Flag.JFRSync (cfg.JFRSync != "") cfg.JFRSync ++
  pairToken Flag.Signal (cfg.Signal != "") cfg.Signal ++
  pairToken Flag.Clock (cfg.Clock != "") cfg.Clock

/-- Modelled from the spec: `Synthesize(options) -> InvocationSpec`, which is
not part of `args.go`. Tokens come in the "group order: CPU, memory, lock,
miscellaneous; within a group, declaration order"; "the working directory and
sampling interval are carried as top-level fields". -/
def Synthesize (options : Arguments Target Appendable) : InvocationSpec :=
  { Tokens := cpuGroup options.ProfilingConfig ++ memoryGroup options.ProfilingConfig ++
      lockGroup options.ProfilingConfig ++ miscGroup options.ProfilingConfig
    Interval := options.ProfilingConfig.Interval
    TmpDir := options.TmpDir }

/-- Modelled from the spec: the tokens of a specification that carry `flag`,
in the order they are emitted. -/
def InvocationSpec.tokensOf (spec : InvocationSpec) (flag : Flag) : List FlagToken :=
  spec.Tokens.filter (fun t => t.flag = flag)

/-- The spec scenario `event="wall", wall="10ms", cpu=false, all=false`. -/
def wallScenario : Arguments Unit Unit :=
  { (DefaultArguments : Arguments Unit Unit) with
    ProfilingConfig := { (DefaultArguments : Arguments Unit Unit).ProfilingConfig with
      Event := "wall", Wall := "10ms", CPU := false, All := false } }

/-- A configuration with the aggregate flag set and every one of the six
individual features switched off, and with three include patterns. -/
def allOnlyArguments : Arguments Unit Unit :=
  { (DefaultArguments : Arguments Unit Unit) with
    ProfilingConfig := { (DefaultArguments : Arguments Unit Unit).ProfilingConfig with
      All := true, CPU := false, Wall := "", Alloc := "", Live := false,
      NativeMem := "", Lock := "", Include := some ["a.*", "b.*", "c.*"] } }

/-! ## Validation -/

/-- Unfolding of `Validate` as a conditional on the event string. -/
theorem Validate_eq_ite (arg : Arguments Target Appendable) :
    arg.Validate =
      if arg.ProfilingConfig.Event = "itimer" ∨ arg.ProfilingConfig.Event = "cpu" ∨
          arg.ProfilingConfig.Event = "wall"
      then .ok () else .error (invalidEventError arg.ProfilingConfig.Event) := by
  unfold Arguments.Validate
  split <;> simp_all

/-- On an event outside the enumeration `Validate` returns the formatted error. -/
theorem Validate_of_not_allowed (arg : Arguments Target Appendable)
    (h : ¬ (arg.ProfilingConfig.Event = "itimer" ∨ arg.ProfilingConfig.Event = "cpu" ∨
          arg.ProfilingConfig.Event = "wall")) :
    arg.Validate = .error (invalidEventError arg.ProfilingConfig.Event) := by
  rw [Validate_eq_ite, if_neg h]

/-- On an event of the enumeration `Validate` returns no error. -/
theorem Validate_of_allowed (arg : Arguments Target Appendable)
    (h : arg.ProfilingConfig.Event = "itimer" ∨ arg.ProfilingConfig.Event = "cpu" ∨
          arg.ProfilingConfig.Event = "wall") :
    arg.Validate = .ok () := by
  rw [Validate_eq_ite, if_pos h]

/-- C1: `Validate` returns no error exactly when the event is one of
`itimer`, `cpu`, `wall`, and returns an error exactly when it is not; the
empty string and spellings in another letter case are rejected. -/
theorem Validate_ok_iff_event_allowed (a : Arguments Target Appendable) :
    (a.Validate = .ok () ↔
      (a.ProfilingConfig.Event = "itimer" ∨ a.ProfilingConfig.Event = "cpu" ∨
        a.ProfilingConfig.Event = "wall")) ∧
    ((∃ m, a.Validate = .error m) ↔
      ¬ (a.ProfilingConfig.Event = "itimer" ∨ a.ProfilingConfig.Event = "cpu" ∨
        a.ProfilingConfig.Event = "wall")) ∧
    (∃ m, (a.withEvent "").Validate = .error m) ∧
    (∃ m, (a.withEvent "CPU").Validate = .error m) ∧
    (∃ m, (a.withEvent "Itimer").Validate = .error m) ∧
    (∃ m, (a.withEvent "WALL").Validate = .error m) := by
  refine ⟨?_, ?_, ?_, ?_, ?_, ?_⟩
  · constructor
    · intro h
      by_contra hn
      rw [Validate_of_not_allowed a hn] at h
      cases h
    · exact Validate_of_allowed a
  · constructor
    · rintro ⟨m, hm⟩ h
      rw [Validate_of_allowed a h] at hm
      cases hm
    · intro hn
      exact ⟨_, Validate_of_not_allowed a hn⟩
  · exact ⟨_, Validate_of_not_allowed _ (by simp [Arguments.withEvent])⟩
  · exact ⟨_, Validate_of_not_allowed _ (by simp [Arguments.withEvent])⟩
  · exact ⟨_, Validate_of_not_allowed _ (by simp [Arguments.withEvent])⟩
  · exact ⟨_, Validate_of_not_allowed _ (by simp [Arguments.withEvent])⟩

/-- C2: `Validate` applied to `DefaultArguments()` returns no error. -/
theorem Validate_DefaultArguments :
    (DefaultArguments : Arguments Target Appendable).Validate = .ok () :=
  Validate_of_allowed _ (Or.inl rfl)

/-- A string contains each of the three pieces it is appended from. -/
theorem Contains_append_mid (pre mid post : String) : Contains (pre ++ mid ++ post) mid := by
  unfold Contains
  refine ⟨pre.data, post.data, ?_⟩
  simp [String.data_append]

/-- Containment is kept when the containing piece sits inside a longer string. -/
theorem Contains_of_mid {pre mid post sub : String} (h : Contains mid sub) :
    Contains (pre ++ mid ++ post) sub := by
  unfold Contains at *
  obtain ⟨l, r, hlr⟩ := h
  refine ⟨pre.data ++ l, r ++ post.data, ?_⟩
  simp [String.data_append, ← hlr]

/-- The fixed head of the error text names the field. -/
theorem head_Contains_event : Contains "invalid event: '" "event" :=
  ⟨"invalid ".data, ": '".data, by decide⟩

/-- The fixed tail of the error text lists `itimer`. -/
theorem tail_Contains_itimer :
    Contains "'. Event must be one of 'itimer', 'cpu' or 'wall'" "itimer" :=
  ⟨"'. Event must be one of '".data, "', 'cpu' or 'wall'".data, by decide⟩

/-- The fixed tail of the error text lists `cpu`. -/
theorem tail_Contains_cpu :
    Contains "'. Event must be one of 'itimer', 'cpu' or 'wall'" "cpu" :=
  ⟨"'. Event must be one of 'itimer', '".data, "' or 'wall'".data, by decide⟩

/-- The fixed tail of the error text lists `wall`. -/
theorem tail_Contains_wall :
    Contains "'. Event must be one of 'itimer', 'cpu' or 'wall'" "wall" :=
  ⟨"'. Event must be one of 'itimer', 'cpu' or '".data, "'".data, by decide⟩

/-- C3: for an event `v` outside `itimer`, `cpu`, `wall`, `Validate` returns
the error whose text is exactly
`invalid event: 'v'. Event must be one of 'itimer', 'cpu' or 'wall'`;
that text contains the word `event`, the value `v` as supplied, and each of
the three allowed names. -/
theorem Validate_error_message (a : Arguments Target Appendable)
    (h : ¬ (a.ProfilingConfig.Event = "itimer" ∨ a.ProfilingConfig.Event = "cpu" ∨
          a.ProfilingConfig.Event = "wall")) :
    ∃ m : GoError, a.Validate = .error m ∧
      m = "invalid event: '" ++ a.ProfilingConfig.Event ++
            "'. Event must be one of 'itimer', 'cpu' or 'wall'" ∧
      Contains m "event" ∧ Contains m a.ProfilingConfig.Event ∧
      Contains m "itimer" ∧ Contains m "cpu" ∧ Contains m "wall" := by
  refine ⟨_, Validate_of_not_allowed a h, rfl, ?_, ?_, ?_, ?_, ?_⟩
  · have := @Contains_of_mid "" "invalid event: '"
      (a.ProfilingConfig.Event ++ "'. Event must be one of 'itimer', 'cpu' or 'wall'")
      "event" head_Contains_event
    simpa [invalidEventError, String.append_assoc] using this
  · exact Contains_append_mid _ _ _
  · have := @Contains_of_mid ("invalid event: '" ++ a.ProfilingConfig.Event)
      "'. Event must be one of 'itimer', 'cpu' or 'wall'" "" "itimer" tail_Contains_itimer
    simpa [invalidEventError] using this
  · have := @Contains_of_mid ("invalid event: '" ++ a.ProfilingConfig.Event)
      "'. Event must be one of 'itimer', 'cpu' or 'wall'" "" "cpu" tail_Contains_cpu
    simpa [invalidEventError] using this
  · have := @Contains_of_mid ("invalid event: '" ++ a.ProfilingConfig.Event)
      "'. Event must be one of 'itimer', 'cpu' or 'wall'" "" "wall" tail_Contains_wall
    simpa [invalidEventError] using this

/-- C3 at the event `perf` on otherwise default arguments. -/
theorem Validate_error_message_witness :
    ¬ (((DefaultArguments : Arguments Unit Unit).withEvent "perf").ProfilingConfig.Event = "itimer" ∨
        ((DefaultArguments : Arguments Unit Unit).withEvent "perf").ProfilingConfig.Event = "cpu" ∨
        ((DefaultArguments : Arguments Unit Unit).withEvent "perf").ProfilingConfig.Event = "wall") ∧
    ∃ m : GoError, ((DefaultArguments : Arguments Unit Unit).withEvent "perf").Validate = .error m ∧
      m = "invalid event: '" ++ ((DefaultArguments : Arguments Unit Unit).withEvent "perf").ProfilingConfig.Event ++
            "'. Event must be one of 'itimer', 'cpu' or 'wall'" ∧
      Contains m "event" ∧
      Contains m ((DefaultArguments : Arguments Unit Unit).withEvent "perf").ProfilingConfig.Event ∧
      Contains m "itimer" ∧ Contains m "cpu" ∧ Contains m "wall" :=
  ⟨by decide, Validate_error_message _ (by decide)⟩

/-! ## Defaults -/

/-- C4: `DefaultArguments()` has CPU profiling enabled at a sample rate of
100 with the event `itimer`, log level `INFO`, clock source `tsc` and the
working directory `/tmp`. -/
theorem DefaultArguments_cpu_log_clock_tmpdir :
    (DefaultArguments : Arguments Target Appendable).ProfilingConfig.CPU = true ∧
    (DefaultArguments : Arguments Target Appendable).ProfilingConfig.SampleRate = 100 ∧
    (DefaultArguments : Arguments Target Appendable).ProfilingConfig.Event = "itimer" ∧
    (DefaultArguments : Arguments Target Appendable).ProfilingConfig.LogLevel = "INFO" ∧
    (DefaultArguments : Arguments Target Appendable).ProfilingConfig.Clock = "tsc" ∧
    (DefaultArguments : Arguments Target Appendable).TmpDir = "/tmp" :=
  ⟨rfl, rfl, rfl, rfl, rfl, rfl⟩

/-- C5, as the claim states it, fails: the default allocation interval is
not empty, it is `512k`. -/
theorem DefaultArguments_Alloc_not_empty :
    (DefaultArguments : Arguments Unit Unit).ProfilingConfig.Alloc ≠ "" ∧
    (DefaultArguments : Arguments Unit Unit).ProfilingConfig.Alloc = "512k" :=
  ⟨by decide, rfl⟩

/-- C5, amended: in `DefaultArguments()` the allocation interval `Alloc` is
`512k` (allocation profiling is on), the native-memory interval `NativeMem`
is empty, `Live` and `NoFree` are false, the native-lock threshold
`NativeLock` is empty, and `Lock` is `10ms`. -/
theorem DefaultArguments_memory_lock :
    (DefaultArguments : Arguments Target Appendable).ProfilingConfig.Alloc = "512k" ∧
    (DefaultArguments : Arguments Target Appendable).ProfilingConfig.NativeMem = "" ∧
    (DefaultArguments : Arguments Target Appendable).ProfilingConfig.Live = false ∧
    (DefaultArguments : Arguments Target Appendable).ProfilingConfig.NoFree = false ∧
    (DefaultArguments : Arguments Target Appendable).ProfilingConfig.NativeLock = "" ∧
    (DefaultArguments : Arguments Target Appendable).ProfilingConfig.Lock = "10ms" :=
  ⟨rfl, rfl, rfl, rfl, rfl, rfl⟩

/-- C8: in `DefaultArguments()` each of `Include`, `Exclude`, `Features` and
`Trace` is a non-nil slice, holds no element, and has length 0. -/
theorem DefaultArguments_lists_present_and_empty :
    ((DefaultArguments : Arguments Target Appendable).ProfilingConfig.Include = some [] ∧
      (DefaultArguments : Arguments Target Appendable).ProfilingConfig.Include ≠ none ∧
      (DefaultArguments : Arguments Target Appendable).ProfilingConfig.Include.len = 0) ∧
    ((DefaultArguments : Arguments Target Appendable).ProfilingConfig.Exclude = some [] ∧
      (DefaultArguments : Arguments Target Appendable).ProfilingConfig.Exclude ≠ none ∧
      (DefaultArguments : Arguments Target Appendable).ProfilingConfig.Exclude.len = 0) ∧
    ((DefaultArguments : Arguments Target Appendable).ProfilingConfig.Features = some [] ∧
      (DefaultArguments : Arguments Target Appendable).ProfilingConfig.Features ≠ none ∧
      (DefaultArguments : Arguments Target Appendable).ProfilingConfig.Features.len = 0) ∧
    ((DefaultArguments : Arguments Target Appendable).ProfilingConfig.Trace = some [] ∧
      (DefaultArguments : Arguments Target Appendable).ProfilingConfig.Trace ≠ none ∧
      (DefaultArguments : Arguments Target Appendable).ProfilingConfig.Trace.len = 0) := by
  refine ⟨⟨rfl, ?_, rfl⟩, ⟨rfl, ?_, rfl⟩, ⟨rfl, ?_, rfl⟩, ⟨rfl, ?_, rfl⟩⟩ <;>
    simp [DefaultArguments]

/-! ## Loading -/

/-- C6: for every prior receiver, `UnmarshalAlloy` with a decoder that
returns no error and leaves the value it is handed unchanged returns no
error and leaves the receiver equal to `DefaultArguments()`. -/
theorem UnmarshalAlloy_empty_payload (prior : Arguments Target Appendable)
    (f : Decoder Target Appendable) (hf : ∀ a, f a = (a, .ok ())) :
    (prior.UnmarshalAlloy f).2 = .ok () ∧
    (prior.UnmarshalAlloy f).1 = DefaultArguments := by
  simp [Arguments.UnmarshalAlloy, hf]

/-- C6 at the prior value `busyArguments` and the decoder `emptyDecoder`. -/
theorem UnmarshalAlloy_empty_payload_witness :
    (∀ a : Arguments Unit Unit, emptyDecoder a = (a, .ok ())) ∧
    (busyArguments.UnmarshalAlloy emptyDecoder).2 = .ok () ∧
    (busyArguments.UnmarshalAlloy emptyDecoder).1 = DefaultArguments :=
  ⟨fun _ => rfl, UnmarshalAlloy_empty_payload busyArguments emptyDecoder (fun _ => rfl)⟩

/-- C7: for every prior receiver and every decoder, a field the decoder does
not write holds, after `UnmarshalAlloy`, the value it has in
`DefaultArguments()`; when the decoder does not write `target_cpu` the
resulting `TargetCPU` is -1 and not 0. -/
theorem UnmarshalAlloy_unwritten_field_default (prior : Arguments Target Appendable)
    (f : Decoder Target Appendable) :
    (∀ (β : Type) (get : Arguments Target Appendable → β), Decoder.DoesNotWrite f get →
      get (prior.UnmarshalAlloy f).1 = get DefaultArguments) ∧
    (Decoder.DoesNotWrite f (fun a => a.ProfilingConfig.TargetCPU) →
      (prior.UnmarshalAlloy f).1.ProfilingConfig.TargetCPU = -1 ∧
      (prior.UnmarshalAlloy f).1.ProfilingConfig.TargetCPU ≠ 0) := by
  refine ⟨fun β get h => h DefaultArguments, fun h => ?_⟩
  have h1 : (prior.UnmarshalAlloy f).1.ProfilingConfig.TargetCPU = -1 := h DefaultArguments
  exact ⟨h1, by rw [h1]; decide⟩

/-- C7 at the prior value `busyArguments` (whose `TargetCPU` is 3) and the
decoder `tmpDirDecoder`, which writes `tmp_dir` only. -/
theorem UnmarshalAlloy_unwritten_field_default_witness :
    Decoder.DoesNotWrite tmpDirDecoder (fun a => a.ProfilingConfig.TargetCPU) ∧
    (busyArguments.UnmarshalAlloy tmpDirDecoder).1.ProfilingConfig.TargetCPU = -1 ∧
    (busyArguments.UnmarshalAlloy tmpDirDecoder).1.ProfilingConfig.TargetCPU ≠ 0 :=
  ⟨fun _ => rfl,
    (UnmarshalAlloy_unwritten_field_default busyArguments tmpDirDecoder).2 (fun _ => rfl)⟩

/-! ## What validation leaves unchecked -/

/-- C9, as the claim states it, fails: `Validate` accepts
`negativeNumericArguments`, whose `SampleRate` and `JStackDepth` are -1 and
whose `TargetCPU` is -2. -/
theorem Validate_accepts_negative_numeric :
    negativeNumericArguments.Validate = .ok () ∧
    ¬ (0 ≤ negativeNumericArguments.ProfilingConfig.SampleRate) ∧
    ¬ (0 ≤ negativeNumericArguments.ProfilingConfig.JStackDepth) ∧
    ¬ (negativeNumericArguments.ProfilingConfig.TargetCPU = -1 ∨
        0 ≤ negativeNumericArguments.ProfilingConfig.TargetCPU) := by
  decide

/-- C9, amended: the numeric fields are non-negative except the
`target_cpu` sentinel in the defaults: `DefaultArguments()`, which `Validate`
accepts, has `SampleRate` 100, `JStackDepth` 2048 and `TargetCPU` -1.
`Validate` places no bound on them: replacing the three fields by any
integers leaves its result unchanged. -/
theorem numeric_fields_default_bounds_unchecked :
    ((DefaultArguments : Arguments Target Appendable).Validate = .ok () ∧
      0 ≤ (DefaultArguments : Arguments Target Appendable).ProfilingConfig.SampleRate ∧
      0 ≤ (DefaultArguments : Arguments Target Appendable).ProfilingConfig.JStackDepth ∧
      (DefaultArguments : Arguments Target Appendable).ProfilingConfig.TargetCPU = -1) ∧
    ∀ (a : Arguments Target Appendable) (sampleRate jStackDepth targetCPU : Int),
      (a.withNumeric sampleRate jStackDepth targetCPU).Validate = a.Validate := by
  refine ⟨⟨Validate_of_allowed _ (Or.inl rfl), ?_, ?_, rfl⟩, ?_⟩
  · show (0 : Int) ≤ 100
    decide
  · show (0 : Int) ≤ 2048
    decide
  intro a s j t
  rw [Validate_eq_ite, Validate_eq_ite]
  rfl

/-- C10: two `Arguments` values with the same `ProfilingConfig.Event` get the
same result from `Validate`, whatever their other fields hold. -/
theorem Validate_depends_only_on_event (a b : Arguments Target Appendable)
    (h : a.ProfilingConfig.Event = b.ProfilingConfig.Event) :
    a.Validate = b.Validate := by
  rw [Validate_eq_ite, Validate_eq_ite, h]

/-- C10 at `DefaultArguments()` and `busyArguments`, which share the event
`itimer` and differ in targets, `tmp_dir`, interval, sample rate and the
memory, lock and miscellaneous options. -/
theorem Validate_depends_only_on_event_witness :
    (DefaultArguments : Arguments Unit Unit).ProfilingConfig.Event =
      busyArguments.ProfilingConfig.Event ∧
    (DefaultArguments : Arguments Unit Unit) ≠ busyArguments ∧
    (DefaultArguments : Arguments Unit Unit).Validate = busyArguments.Validate :=
  ⟨rfl, by decide, Validate_depends_only_on_event _ _ rfl⟩

/-! ## Loading: errors and the remaining defaults -/

/-- C13: `UnmarshalAlloy` returns exactly what the decoder returns on the
defaulted receiver, so it fails if and only if the decoder fails and with the
same error; the receiver afterwards is what the decoder left of
`DefaultArguments()`, also when the decoder fails. With `failingDecoder`,
which writes `tmp_dir` and fails, the receiver is not the prior value
`busyArguments` but the defaults with `tmp_dir` written. -/
theorem UnmarshalAlloy_returns_decoder_result (prior : Arguments Target Appendable)
    (f : Decoder Target Appendable) :
    (prior.UnmarshalAlloy f).2 = (f DefaultArguments).2 ∧
    (∀ m : GoError, (prior.UnmarshalAlloy f).2 = .error m ↔ (f DefaultArguments).2 = .error m) ∧
    (prior.UnmarshalAlloy f).1 = (f DefaultArguments).1 ∧
    ((busyArguments.UnmarshalAlloy failingDecoder).2 = .error "decode: unknown attribute" ∧
      (busyArguments.UnmarshalAlloy failingDecoder).1 ≠ busyArguments ∧
      (busyArguments.UnmarshalAlloy failingDecoder).1 =
        { (DefaultArguments : Arguments Unit Unit) with TmpDir := "/var/tmp" }) := by
  refine ⟨rfl, fun m => Iff.rfl, rfl, rfl, ?_, rfl⟩
  decide

/-- C14: the fields of `DefaultArguments()` the spec does not name: `Interval`
is 60 seconds (60,000,000,000 ns), `JStackDepth` 2048, `TargetCPU` -1, `Alloc`
`512k`; every boolean switch other than `CPU` is false; `Wall`, `Filter`,
`Begin`, `End`, `Proc`, `NativeMem`, `NativeLock`, `CStack`, `JFRSync`,
`Signal` and `Dist` are empty; `Targets` and `ForwardTo` are nil. -/
theorem DefaultArguments_remaining_fields :
    ((DefaultArguments : Arguments Target Appendable).ProfilingConfig.Interval = 60 * Second ∧
      (DefaultArguments : Arguments Target Appendable).ProfilingConfig.Interval = 60000000000 ∧
      (DefaultArguments : Arguments Target Appendable).ProfilingConfig.JStackDepth = 2048 ∧
      (DefaultArguments : Arguments Target Appendable).ProfilingConfig.TargetCPU = -1 ∧
      (DefaultArguments : Arguments Target Appendable).ProfilingConfig.Alloc = "512k") ∧
    ((DefaultArguments : Arguments Target Appendable).ProfilingConfig.AllUser = false ∧
      (DefaultArguments : Arguments Target Appendable).ProfilingConfig.PerThread = false ∧
      (DefaultArguments : Arguments Target Appendable).ProfilingConfig.Sched = false ∧
      (DefaultArguments : Arguments Target Appendable).ProfilingConfig.TTSP = false ∧
      (DefaultArguments : Arguments Target Appendable).ProfilingConfig.NoStop = false ∧
      (DefaultArguments : Arguments Target Appendable).ProfilingConfig.RecordCPU = false ∧
      (DefaultArguments : Arguments Target Appendable).ProfilingConfig.Live = false ∧
      (DefaultArguments : Arguments Target Appendable).ProfilingConfig.NoFree = false ∧
      (DefaultArguments : Arguments Target Appendable).ProfilingConfig.All = false ∧
      (DefaultArguments : Arguments Target Appendable).ProfilingConfig.Quiet = false) ∧
    ((DefaultArguments : Arguments Target Appendable).ProfilingConfig.Wall = "" ∧
      (DefaultArguments : Arguments Target Appendable).ProfilingConfig.Filter = "" ∧
      (DefaultArguments : Arguments Target Appendable).ProfilingConfig.Begin = "" ∧
      (DefaultArguments : Arguments Target Appendable).ProfilingConfig.End = "" ∧
      (DefaultArguments : Arguments Target Appendable).ProfilingConfig.Proc = "" ∧
      (DefaultArguments : Arguments Target Appendable).ProfilingConfig.NativeMem = "" ∧
      (DefaultArguments : Arguments Target Appendable).ProfilingConfig.NativeLock = "" ∧
      (DefaultArguments : Arguments Target Appendable).ProfilingConfig.CStack = "" ∧
      (DefaultArguments : Arguments Target Appendable).ProfilingConfig.JFRSync = "" ∧
      (DefaultArguments : Arguments Target Appendable).ProfilingConfig.Signal = "" ∧
      (DefaultArguments : Arguments Target Appendable).Dist = "") ∧
    ((DefaultArguments : Arguments Target Appendable).Targets = none ∧
      (DefaultArguments : Arguments Target Appendable).Targets.len = 0 ∧
      (DefaultArguments : Arguments Target Appendable).ForwardTo = none ∧
      (DefaultArguments : Arguments Target Appendable).ForwardTo.len = 0) := by
  refine ⟨⟨rfl, ?_, rfl, rfl, rfl⟩, ⟨rfl, rfl, rfl, rfl, rfl, rfl, rfl, rfl, rfl, rfl⟩,
    ⟨rfl, rfl, rfl, rfl, rfl, rfl, rfl, rfl, rfl, rfl, rfl⟩, ⟨rfl, rfl, rfl, rfl⟩⟩
  show (60 : Int) * Second = 60000000000
  decide

/-- C15: for every prior receiver and every decoder that returns no error
and does not write `ProfilingConfig.Event`, `UnmarshalAlloy` returns no error
and `Validate` accepts the receiver it leaves; `Validate` on the zero value
of `Arguments`, whose event is empty, returns an error. -/
theorem Validate_after_UnmarshalAlloy (prior : Arguments Target Appendable)
    (f : Decoder Target Appendable) (hok : ∀ a, (f a).2 = .ok ())
    (hev : Decoder.DoesNotWrite f (fun a => a.ProfilingConfig.Event)) :
    (prior.UnmarshalAlloy f).2 = .ok () ∧
    (prior.UnmarshalAlloy f).1.Validate = .ok () ∧
    (Arguments.zero : Arguments Target Appendable).ProfilingConfig.Event = "" ∧
    (Arguments.zero : Arguments Target Appendable).Validate =
      .error "invalid event: ''. Event must be one of 'itimer', 'cpu' or 'wall'" := by
  refine ⟨hok _, ?_, rfl, ?_⟩
  · apply Validate_of_allowed
    left
    exact hev DefaultArguments
  · rw [Validate_of_not_allowed _ (by simp [Arguments.zero, ProfilingConfig.zero])]
    rfl

/-- C15 at the prior value `Arguments.zero` and the decoder `tmpDirDecoder`. -/
theorem Validate_after_UnmarshalAlloy_witness :
    (∀ a, (tmpDirDecoder a).2 = .ok ()) ∧
    Decoder.DoesNotWrite tmpDirDecoder (fun a => a.ProfilingConfig.Event) ∧
    ((Arguments.zero : Arguments Unit Unit).UnmarshalAlloy tmpDirDecoder).2 = .ok () ∧
    ((Arguments.zero : Arguments Unit Unit).UnmarshalAlloy tmpDirDecoder).1.Validate = .ok () ∧
    (Arguments.zero : Arguments Unit Unit).ProfilingConfig.Event = "" ∧
    (Arguments.zero : Arguments Unit Unit).Validate =
      .error "invalid event: ''. Event must be one of 'itimer', 'cpu' or 'wall'" :=
  ⟨fun _ => rfl, fun _ => rfl,
    Validate_after_UnmarshalAlloy Arguments.zero tmpDirDecoder (fun _ => rfl) (fun _ => rfl)⟩

/-! ## Synthesis (modelled from the spec) -/

/-- A switch contributes no token of another flag. -/
theorem filter_switchToken_ne {flag other : Flag} (h : other ≠ flag) (present : Bool) :
    (switchToken other present).filter (fun t => t.flag = flag) = [] := by
  unfold switchToken
  split <;> simp [FlagToken.flag, h]

/-- A pair contributes no token of another flag. -/
theorem filter_pairToken_ne {flag other : Flag} (h : other ≠ flag) (enabled : Bool)
    (value : String) :
    (pairToken other enabled value).filter (fun t => t.flag = flag) = [] := by
  unfold pairToken
  split <;> simp [FlagToken.flag, h]

/-- A list field contributes no token of another flag. -/
theorem filter_listTokens_ne {flag other : Flag} (h : other ≠ flag) (xs : GoSlice String) :
    (listTokens other xs).filter (fun t => t.flag = flag) = [] := by
  unfold listTokens
  simp [List.filter_eq_nil_iff, FlagToken.flag, h]

/-- Every token of a list field carries the flag of that field. -/
theorem filter_listTokens_self (flag : Flag) (xs : GoSlice String) :
    (listTokens flag xs).filter (fun t => t.flag = flag) = listTokens flag xs := by
  unfold listTokens
  simp [List.filter_eq_self, FlagToken.flag]

/-- The tokens of `flag` in the whole output, group by group. -/
theorem tokensOf_Synthesize (options : Arguments Target Appendable) (flag : Flag) :
    (Synthesize options).tokensOf flag =
      (cpuGroup options.ProfilingConfig).filter (fun t => t.flag = flag) ++
      (memoryGroup options.ProfilingConfig).filter (fun t => t.flag = flag) ++
      (lockGroup options.ProfilingConfig).filter (fun t => t.flag = flag) ++
      (miscGroup options.ProfilingConfig).filter (fun t => t.flag = flag) := by
  simp [InvocationSpec.tokensOf, Synthesize, List.filter_append]

/-- The tokens of the list field `Include` in the output. -/
theorem tokensOf_Include (options : Arguments Target Appendable) :
    (Synthesize options).tokensOf Flag.Include =
      listTokens Flag.Include options.ProfilingConfig.Include := by
  rw [tokensOf_Synthesize]
  simp [cpuGroup, memoryGroup, lockGroup, miscGroup, List.filter_append,
    filter_switchToken_ne, filter_pairToken_ne, filter_listTokens_ne, filter_listTokens_self]

/-- The tokens of the list field `Exclude` in the output. -/
theorem tokensOf_Exclude (options : Arguments Target Appendable) :
    (Synthesize options).tokensOf Flag.Exclude =
      listTokens Flag.Exclude options.ProfilingConfig.Exclude := by
  rw [tokensOf_Synthesize]
  simp [cpuGroup, memoryGroup, lockGroup, miscGroup, List.filter_append,
    filter_switchToken_ne, filter_pairToken_ne, filter_listTokens_ne, filter_listTokens_self]

/-- The tokens of the list field `Features` in the output. -/
theorem tokensOf_Features (options : Arguments Target Appendable) :
    (Synthesize options).tokensOf Flag.Features =
      listTokens Flag.Features options.ProfilingConfig.Features := by
  rw [tokensOf_Synthesize]
  simp [cpuGroup, memoryGroup, lockGroup, miscGroup, List.filter_append,
    filter_switchToken_ne, filter_pairToken_ne, filter_listTokens_ne, filter_listTokens_self]

/-- The tokens of the list field `Trace` in the output. -/
theorem tokensOf_Trace (options : Arguments Target Appendable) :
    (Synthesize options).tokensOf Flag.Trace =
      listTokens Flag.Trace options.ProfilingConfig.Trace := by
  rw [tokensOf_Synthesize]
  simp [cpuGroup, memoryGroup, lockGroup, miscGroup, List.filter_append,
    filter_switchToken_ne, filter_pairToken_ne, filter_listTokens_ne, filter_listTokens_self]

/-- A list field yields as many tokens as the slice has elements. -/
theorem length_listTokens (flag : Flag) (xs : GoSlice String) :
    (listTokens flag xs).length = xs.len := by
  cases xs <;> simp [listTokens, GoSlice.elems, GoSlice.len]

/-- The model on the spec scenario `event="wall", wall="10ms", cpu=false,
all=false`: a wall-clock token with the value `10ms` and no CPU token. -/
theorem Synthesize_wallScenario :
    FlagToken.pair Flag.Wall "10ms" ∈ (Synthesize wallScenario).Tokens ∧
    (Synthesize wallScenario).tokensOf Flag.CPU = [] := by
  decide

/-- The model on the spec scenario for `target_cpu`: no token at the default
-1, one token with the value `3` at 3. -/
theorem Synthesize_targetCPU_scenario :
    (Synthesize (DefaultArguments : Arguments Unit Unit)).tokensOf Flag.TargetCPU = [] ∧
    (Synthesize busyArguments).tokensOf Flag.TargetCPU = [FlagToken.pair Flag.TargetCPU "3"] := by
  decide

/-- C11: when the aggregate `All` flag is set, the output of `Synthesize`
contains the CPU, wall, allocation, live, native-memory and lock tokens,
whatever the fields `CPU`, `Wall`, `Alloc`, `Live`, `NativeMem` and `Lock`
hold. -/
theorem Synthesize_All_contains_six (options : Arguments Target Appendable)
    (h : options.ProfilingConfig.All = true) :
    FlagToken.switch Flag.CPU ∈ (Synthesize options).Tokens ∧
    FlagToken.pair Flag.Wall options.ProfilingConfig.Wall ∈ (Synthesize options).Tokens ∧
    FlagToken.pair Flag.Alloc options.ProfilingConfig.Alloc ∈ (Synthesize options).Tokens ∧
    FlagToken.switch Flag.Live ∈ (Synthesize options).Tokens ∧
    FlagToken.pair Flag.NativeMem options.ProfilingConfig.NativeMem ∈ (Synthesize options).Tokens ∧
    FlagToken.pair Flag.Lock options.ProfilingConfig.Lock ∈ (Synthesize options).Tokens := by
  simp [Synthesize, cpuGroup, memoryGroup, lockGroup, miscGroup, effectiveSet, switchToken,
    pairToken, h]

/-- C11 at `allOnlyArguments`: `All` is set and each of the six individual
features is off. -/
theorem Synthesize_All_contains_six_witness :
    allOnlyArguments.ProfilingConfig.All = true ∧
    (allOnlyArguments.ProfilingConfig.CPU = false ∧ allOnlyArguments.ProfilingConfig.Wall = "" ∧
      allOnlyArguments.ProfilingConfig.Alloc = "" ∧ allOnlyArguments.ProfilingConfig.Live = false ∧
      allOnlyArguments.ProfilingConfig.NativeMem = "" ∧ allOnlyArguments.ProfilingConfig.Lock = "") ∧
    (FlagToken.switch Flag.CPU ∈ (Synthesize allOnlyArguments).Tokens ∧
      FlagToken.pair Flag.Wall allOnlyArguments.ProfilingConfig.Wall ∈
        (Synthesize allOnlyArguments).Tokens ∧
      FlagToken.pair Flag.Alloc allOnlyArguments.ProfilingConfig.Alloc ∈
        (Synthesize allOnlyArguments).Tokens ∧
      FlagToken.switch Flag.Live ∈ (Synthesize allOnlyArguments).Tokens ∧
      FlagToken.pair Flag.NativeMem allOnlyArguments.ProfilingConfig.NativeMem ∈
        (Synthesize allOnlyArguments).Tokens ∧
      FlagToken.pair Flag.Lock allOnlyArguments.ProfilingConfig.Lock ∈
        (Synthesize allOnlyArguments).Tokens) :=
  ⟨rfl, ⟨rfl, rfl, rfl, rfl, rfl, rfl⟩, Synthesize_All_contains_six allOnlyArguments rfl⟩

/-- C12: for each of the list fields `Include`, `Exclude`, `Features` and
`Trace`, the tokens of that flag in the output of `Synthesize` are exactly
one pair per element of the field, with the elements as values in input
order; there are as many as the field has elements, none for an empty or nil
list. -/
theorem Synthesize_list_fields (options : Arguments Target Appendable) :
    ((Synthesize options).tokensOf Flag.Include =
        options.ProfilingConfig.Include.elems.map (FlagToken.pair Flag.Include) ∧
      ((Synthesize options).tokensOf Flag.Include).length = options.ProfilingConfig.Include.len) ∧
    ((Synthesize options).tokensOf Flag.Exclude =
        options.ProfilingConfig.Exclude.elems.map (FlagToken.pair Flag.Exclude) ∧
      ((Synthesize options).tokensOf Flag.Exclude).length = options.ProfilingConfig.Exclude.len) ∧
    ((Synthesize options).tokensOf Flag.Features =
        options.ProfilingConfig.Features.elems.map (FlagToken.pair Flag.Features) ∧
      ((Synthesize options).tokensOf Flag.Features).length = options.ProfilingConfig.Features.len) ∧
    ((Synthesize options).tokensOf Flag.Trace =
        options.ProfilingConfig.Trace.elems.map (FlagToken.pair Flag.Trace) ∧
      ((Synthesize options).tokensOf Flag.Trace).length = options.ProfilingConfig.Trace.len) := by
  refine ⟨⟨?_, ?_⟩, ⟨?_, ?_⟩, ⟨?_, ?_⟩, ⟨?_, ?_⟩⟩
  · rw [tokensOf_Include]; rfl
  · rw [tokensOf_Include, length_listTokens]
  · rw [tokensOf_Exclude]; rfl
  · rw [tokensOf_Exclude, length_listTokens]
  · rw [tokensOf_Features]; rfl
  · rw [tokensOf_Features, length_listTokens]
  · rw [tokensOf_Trace]; rfl
  · rw [tokensOf_Trace, length_listTokens]

end java
